import Mathlib

set_option maxRecDepth 100000

/-
Verification development for the OutlineMCP gateway (src/proxy.py).

The Python source is shallowly embedded: pure helpers become Lean
functions, the module-level mutable state (container_registry,
allocated_ports, the container runtime world) becomes an explicit Sys
record threaded through the operations, and the async functions become
state machines whose atomic segments are the code between await points.
Machine integers do not occur; ports, times and hash words are Nat
(hash words reduced mod 2 ^ 32 where the source wraps).
-/

-- ===========================================================================
-- SHA-256 (models hashlib.sha256 used by hash_api_key in src/proxy.py:77-80)
-- ===========================================================================

def M32 : Nat := 4294967296

/-- Right rotation of a 32-bit word. -/
def rotr (n x : Nat) : Nat := ((x >>> n) ||| (x <<< (32 - n))) % M32

def sha256K : List Nat :=
  [1116352408, 1899447441, 3049323471, 3921009573, 961987163, 1508970993,
   2453635748, 2870763221, 3624381080, 310598401, 607225278, 1426881987,
   1925078388, 2162078206, 2614888103, 3248222580, 3835390401, 4022224774,
   264347078, 604807628, 770255983, 1249150122, 1555081692, 1996064986,
   2554220882, 2821834349, 2952996808, 3210313671, 3336571891, 3584528711,
   113926993, 338241895, 666307205, 773529912, 1294757372, 1396182291,
   1695183700, 1986661051, 2177026350, 2456956037, 2730485921, 2820302411,
   3259730800, 3345764771, 3516065817, 3600352804, 4094571909, 275423344,
   430227734, 506948616, 659060556, 883997877, 958139571, 1322822218,
   1537002063, 1747873779, 1955562222, 2024104815, 2227730452, 2361852424,
   2428436474, 2756734187, 3204031479, 3329325298]

structure H8 where
  a : Nat
  b : Nat
  c : Nat
  d : Nat
  e : Nat
  f : Nat
  g : Nat
  h : Nat
deriving DecidableEq

def sha256H0 : H8 :=
  ⟨1779033703, 3144134277, 1013904242, 2773480762,
   1359893119, 2600822924, 528734635, 1541459225⟩

/-- Big-endian byte list of a number, k bytes. -/
def bytesBE : Nat → Nat → List Nat
  | 0, _ => []
  | k + 1, x => bytesBE k (x / 256) ++ [x % 256]

/-- Group a byte list into 32-bit big-endian words. -/
def wordsOfBytes : List Nat → List Nat
  | b0 :: b1 :: b2 :: b3 :: rest =>
      (((b0 * 256 + b1) * 256 + b2) * 256 + b3) :: wordsOfBytes rest
  | _ => []

/-- Message-schedule extension: append fuel many words. -/
def extendW : Nat → List Nat → List Nat
  | 0, w => w
  | k + 1, w =>
    let i := w.length
    let w15 := w.getD (i - 15) 0
    let w2 := w.getD (i - 2) 0
    let w16 := w.getD (i - 16) 0
    let w7 := w.getD (i - 7) 0
    let s0 := rotr 7 w15 ^^^ rotr 18 w15 ^^^ (w15 >>> 3)
    let s1 := rotr 17 w2 ^^^ rotr 19 w2 ^^^ (w2 >>> 10)
    extendW k (w ++ [(w16 + s0 + w7 + s1) % M32])

def compressStep (st : H8) (kw : Nat × Nat) : H8 :=
  let S1 := rotr 6 st.e ^^^ rotr 11 st.e ^^^ rotr 25 st.e
  let ch := (st.e &&& st.f) ^^^ ((4294967295 - st.e) &&& st.g)
  let temp1 := (st.h + S1 + ch + kw.1 + kw.2) % M32
  let S0 := rotr 2 st.a ^^^ rotr 13 st.a ^^^ rotr 22 st.a
  let maj := (st.a &&& st.b) ^^^ (st.a &&& st.c) ^^^ (st.b &&& st.c)
  let temp2 := (S0 + maj) % M32
  ⟨(temp1 + temp2) % M32, st.a, st.b, st.c, (st.d + temp1) % M32, st.e, st.f, st.g⟩

def processBlock (hs : H8) (block : List Nat) : H8 :=
  let w := extendW 48 (wordsOfBytes block)
  let st := (sha256K.zip w).foldl compressStep hs
  ⟨(hs.a + st.a) % M32, (hs.b + st.b) % M32, (hs.c + st.c) % M32, (hs.d + st.d) % M32,
   (hs.e + st.e) % M32, (hs.f + st.f) % M32, (hs.g + st.g) % M32, (hs.h + st.h) % M32⟩

/-- FIPS 180-4 padding of a byte message. -/
def padMsg (msg : List Nat) : List Nat :=
  let L := msg.length
  msg ++ [128] ++ List.replicate ((119 - L % 64) % 64) 0 ++ bytesBE 8 (8 * L)

def blocksOf (l : List Nat) : List (List Nat) :=
  (List.range (l.length / 64)).map (fun i => ((l.drop (64 * i)).take 64))

def sha256Bytes (msg : List Nat) : H8 := (blocksOf (padMsg msg)).foldl processBlock sha256H0

/-- UTF-8 encoding of one character, as in str.encode in the source. -/
def utf8Char (c : Char) : List Nat :=
  let n := c.toNat
  if n < 128 then [n]
  else if n < 2048 then [192 + n / 64, 128 + n % 64]
  else if n < 65536 then [224 + n / 4096, 128 + n / 64 % 64, 128 + n % 64]
  else [240 + n / 262144, 128 + n / 4096 % 64, 128 + n / 64 % 64, 128 + n % 64]

def utf8Encode (s : String) : List Nat := (s.data.map utf8Char).flatten

def digestBytes (st : H8) : List Nat :=
  bytesBE 4 st.a ++ bytesBE 4 st.b ++ bytesBE 4 st.c ++ bytesBE 4 st.d ++
  bytesBE 4 st.e ++ bytesBE 4 st.f ++ bytesBE 4 st.g ++ bytesBE 4 st.h

def hexChar (n : Nat) : Char := Char.ofNat (if n < 10 then 48 + n else 87 + n)

def byteHex (b : Nat) : List Char := [hexChar (b / 16 % 16), hexChar (b % 16)]

/-- Lowercase hexadecimal digest characters of the SHA-256 of a string. -/
def sha256hex (s : String) : List Char :=
  ((digestBytes (sha256Bytes (utf8Encode s))).map byteHex).flatten

-- ===========================================================================
-- hash_api_key (src/proxy.py:77-80)
-- ===========================================================================

/-- Source hash_api_key: container name from the API key, the string mcp-
followed by the first 12 characters of the hex SHA-256 digest. -/
def hash_api_key (api_key : String) : String :=
  "mcp-" ++ String.mk ((sha256hex api_key).take 12)

/-- Spec-worded fingerprint: the first 12 characters of the lowercase hex
SHA-256 of the credential (section 3 of the spec). Used only to compare the
source definition hash_api_key against the wording of the spec. -/
def fingerprint_spec (tok : String) : String := String.mk ((sha256hex tok).take 12)

/-- Spec-worded derived container name: mcp- followed by the fingerprint. -/
def containerName_spec (tok : String) : String := "mcp-" ++ fingerprint_spec tok

/-- Whether a character is a lowercase hexadecimal digit. -/
def isLowerHexChar (c : Char) : Bool := ("0123456789abcdef").data.contains c

-- ===========================================================================
-- Port allocator (src/proxy.py:56-58, 99-123)
-- ===========================================================================

def NEXT_PORT : Nat := 4000
def MAX_PORT : Nat := 5000

/-- The for-loop of get_next_available_port: first port in the list that is
in neither set. -/
def firstFree (alloc used : List Nat) : List Nat → Option Nat
  | [] => none
  | p :: ps => if p ∉ alloc ∧ p ∉ used then some p else firstFree alloc used ps

/-- Python set.add on the allocated-ports set. -/
def insertPort (p : Nat) (l : List Nat) : List Nat := if p ∈ l then l else p :: l

/-- Source get_next_available_port: scans [NEXT_PORT, MAX_PORT) for the first
port neither in the allocated set nor bound by a container, inserts it into
the allocated set and returns it; none models the RuntimeError raised on
exhaustion. The used list holds the host ports read from the 3000/tcp
bindings of all containers. -/
def get_next_available_port (alloc used : List Nat) : Option (Nat × List Nat) :=
  match firstFree alloc used (List.range' NEXT_PORT (MAX_PORT - NEXT_PORT)) with
  | some p => some (p, insertPort p alloc)
  | none => none

-- ===========================================================================
-- Credential oracle (src/proxy.py:83-96)
-- ===========================================================================

/-- What the upstream auth.info call produced: an HTTP status, or a raised
exception (network error, timeout). -/
inductive OracleResp where
  | httpStatus : Nat → OracleResp
  | netError : OracleResp
deriving DecidableEq

/-- Source validate_outline_key: true exactly when the upstream response has
status 200; every exception is caught and mapped to false. -/
def validate_outline_key : OracleResp → Bool
  | OracleResp.httpStatus n => n == 200
  | OracleResp.netError => false

-- ===========================================================================
-- Request proxying (src/proxy.py:381-433)
-- ===========================================================================

/-- Outcome of the upstream httpx request inside proxy_request. -/
inductive UpstreamResult where
  | response : Nat → UpstreamResult
  | timeout : UpstreamResult
  | connError : UpstreamResult
deriving DecidableEq

/-- Status code produced by proxy_request: the upstream status is passed
through; httpx.TimeoutException raises 504; any other exception raises 502. -/
def proxy_request (u : UpstreamResult) : Nat :=
  match u with
  | UpstreamResult.response st => st
  | UpstreamResult.timeout => 504
  | UpstreamResult.connError => 502

/-- Body forwarded upstream (src/proxy.py:408-417): starts as the empty byte
string and is replaced by the inbound body only for POST, PUT and PATCH. -/
def forwarded_body (method : String) (body : List Nat) : List Nat :=
  if method ∈ [("POST" : String), "PUT", "PATCH"] then body else []

-- ===========================================================================
-- Data model: registry, runtime world, events (src/proxy.py:35-71, 130-177)
-- ===========================================================================

/-- Source ContainerInfo dataclass. -/
structure ContainerInfo where
  container_name : String
  api_key_hash : String
  port : Nat
  last_used : Nat
  created_at : Nat
  status : String
deriving DecidableEq

/-- One container of the runtime inventory: its name, whether it is running,
and the host port bound to 3000/tcp if the binding is valid. -/
structure DCont where
  name : String
  running : Bool
  binding : Option Nat
deriving DecidableEq

/-- Observable runtime-adapter calls, recorded in issue order. -/
inductive Ev where
  | portMark : Nat → Ev
  | create : String → Ev
  | start : String → Ev
  | stop : String → Ev
  | remove : String → Ev
deriving DecidableEq

/-- The mutable module-level state of src/proxy.py plus the runtime world:
container_registry, allocated_ports, the Docker inventory, and the log of
adapter calls issued so far. -/
structure Sys where
  registry : List (String × ContainerInfo)
  allocated : List Nat
  world : List DCont
  events : List Ev
deriving DecidableEq

/-- Environment of one run: whether container start and create succeed or
raise, whether container stop succeeds, and the current time. -/
structure Params where
  startOk : Bool
  createOk : Bool
  stopOk : Bool
  now : Nat
deriving DecidableEq

def regGet (r : List (String × ContainerInfo)) (k : String) : Option ContainerInfo :=
  match r with
  | [] => none
  | kv :: rest => if kv.1 = k then some kv.2 else regGet rest k

def regPut (r : List (String × ContainerInfo)) (k : String) (v : ContainerInfo) :
    List (String × ContainerInfo) :=
  match r with
  | [] => [(k, v)]
  | kv :: rest => if kv.1 = k then (k, v) :: rest else kv :: regPut rest k v

def regDel (r : List (String × ContainerInfo)) (k : String) : List (String × ContainerInfo) :=
  r.filter (fun kv => ¬ kv.1 = k)

def wGet (w : List DCont) (n : String) : Option DCont :=
  match w with
  | [] => none
  | c :: cs => if c.name = n then some c else wGet cs n

def wSetRunning (w : List DCont) (n : String) (b : Bool) : List DCont :=
  w.map (fun c => if c.name = n then ⟨c.name, b, c.binding⟩ else c)

def wRemove (w : List DCont) (n : String) : List DCont :=
  w.filter (fun c => ¬ c.name = n)

/-- Host ports bound by containers, as read in get_next_available_port. -/
def wUsedPorts (w : List DCont) : List Nat := w.filterMap (fun c => c.binding)

/-- Source is_container_running: docker NotFound is caught and gives false. -/
def is_container_running (w : List DCont) (n : String) : Bool :=
  match wGet w n with
  | some c => c.running
  | none => false

/-- Source is_container_stopped: the container exists but is not running. -/
def is_container_stopped (w : List DCont) (n : String) : Bool :=
  match wGet w n with
  | some c => !c.running
  | none => false

/-- Source start_existing_container: true on success; a container already
running is left alone; a missing container or a failing start gives false. -/
def start_existing_container (P : Params) (s : Sys) (n : String) : Bool × Sys :=
  match wGet s.world n with
  | none => (false, s)
  | some c =>
    if c.running then (true, s)
    else if P.startOk then
      (true, { s with world := wSetRunning s.world n true,
                      events := s.events ++ [Ev.start n] })
    else
      (false, { s with events := s.events ++ [Ev.start n] })

/-- Source create_container: on success the container exists, is running and
is bound to the given port; on any failure the function returns None and the
world is unchanged. The best-effort image pull is not observable here. -/
def create_container (P : Params) (s : Sys) (n : String) (port : Nat) :
    Option String × Sys :=
  if P.createOk then
    (some n, { s with world := s.world ++ [⟨n, true, some port⟩],
                      events := s.events ++ [Ev.create n] })
  else
    (none, s)


-- ===========================================================================
-- Lifecycle controller: create_or_start_container (src/proxy.py:253-378)
-- ===========================================================================

/-- Result of create_or_start_container: the (port, container_name) pair, or
a raised exception (RuntimeError on creation failure or port exhaustion). -/
inductive RResult where
  | ok : Nat → String → RResult
  | err : RResult
deriving DecidableEq

/-- Which await asyncio.sleep the coroutine is suspended at (lines 278, 312
and 365 of the source are the only awaits inside create_or_start_container;
every docker and registry operation between them is synchronous and atomic
under the cooperative event loop). -/
inductive SuspKind where
  | restart
  | adopt
  | create
deriving DecidableEq

/-- A coroutine is done with a result or suspended at a sleep, holding the
port and container name already computed. -/
inductive Phase where
  | done : RResult → Phase
  | susp : SuspKind → Nat → String → Phase
deriving DecidableEq

/-- Case 3 of create_or_start_container (lines 356-378 up to the await):
acquire a port, create the container; creation failure raises. -/
def cosc3 (P : Params) (n : String) (s : Sys) : Phase × Sys :=
  match get_next_available_port s.allocated (wUsedPorts s.world) with
  | none => (Phase.done RResult.err, s)
  | some (p, alloc1) =>
    let s1 : Sys := { s with allocated := alloc1, events := s.events ++ [Ev.portMark p] }
    match create_container P s1 n p with
    | (some _, s2) => (Phase.susp SuspKind.create p n, s2)
    | (none, s2) => (Phase.done RResult.err, s2)

/-- Second half of case 2 (lines 327-354): a running container on disk that
is not in the registry is adopted in place; without a valid binding it is
stopped and creation follows. -/
def cosc2b (P : Params) (n : String) (s : Sys) : Phase × Sys :=
  if is_container_running s.world n then
    match wGet s.world n with
    | some c =>
      match c.binding with
      | some p =>
        let s1 : Sys := { s with allocated := insertPort p s.allocated,
                                 events := s.events ++ [Ev.portMark p] }
        let s2 : Sys := { s1 with
          registry := regPut s1.registry n ⟨n, n, p, P.now, P.now, "running"⟩ }
        (Phase.done (RResult.ok p n), s2)
      | none =>
        let s1 : Sys :=
          if P.stopOk then
            { s with world := wSetRunning s.world n false,
                     events := s.events ++ [Ev.stop n] }
          else
            { s with events := s.events ++ [Ev.stop n] }
        cosc3 P n s1
    | none => cosc3 P n s
  else cosc3 P n s

/-- First half of case 2 (lines 286-325): a stopped container on disk that is
not in the registry; with a valid binding its port is marked allocated and it
is restarted, otherwise it is removed. -/
def cosc2 (P : Params) (n : String) (s : Sys) : Phase × Sys :=
  if is_container_stopped s.world n then
    match wGet s.world n with
    | some c =>
      match c.binding with
      | some p =>
        let s1 : Sys := { s with allocated := insertPort p s.allocated,
                                 events := s.events ++ [Ev.portMark p] }
        match start_existing_container P s1 n with
        | (true, s2) =>
          let s3 : Sys := { s2 with
            registry := regPut s2.registry n ⟨n, n, p, P.now, P.now, "running"⟩ }
          (Phase.susp SuspKind.adopt p n, s3)
        | (false, s2) => cosc2b P n s2
      | none =>
        let s1 : Sys := { s with world := wRemove s.world n,
                                 events := s.events ++ [Ev.remove n] }
        cosc2b P n s1
    | none => cosc2b P n s
  else cosc2b P n s

/-- First atomic segment of create_or_start_container, entered with the
fingerprint-derived name n: case 1 (registry hit, lines 262-283), falling
through to cases 2 and 3. A failed restart deletes the record and falls
through without releasing the port. -/
def cosc0 (P : Params) (n : String) (s : Sys) : Phase × Sys :=
  match regGet s.registry n with
  | some info =>
    if is_container_running s.world info.container_name then
      let s1 : Sys := { s with
        registry := regPut s.registry n { info with last_used := P.now } }
      (Phase.done (RResult.ok info.port info.container_name), s1)
    else if is_container_stopped s.world info.container_name then
      match start_existing_container P s info.container_name with
      | (true, s1) =>
        let s2 : Sys := { s1 with
          registry := regPut s1.registry n
            { info with last_used := P.now, status := "running" } }
        (Phase.susp SuspKind.restart info.port info.container_name, s2)
      | (false, s1) =>
        let s2 : Sys := { s1 with registry := regDel s1.registry n }
        cosc2 P n s2
    else cosc2 P n s
  | none => cosc2 P n s

/-- The code after the await of each suspension: the fresh-creation path
registers its record after its sleep (lines 368-378); the restart and
adoption paths registered before sleeping and only return. -/
def coscResume (P : Params) (n : String) (k : SuspKind) (p : Nat) (cn : String)
    (s : Sys) : Phase × Sys :=
  match k with
  | SuspKind.create =>
    let s1 : Sys := { s with registry := regPut s.registry n ⟨cn, n, p, P.now, P.now, "running"⟩ }
    (Phase.done (RResult.ok p cn), s1)
  | _ => (Phase.done (RResult.ok p cn), s)

/-- Run the coroutine for name n to completion with no interleaving. -/
def coscRun (P : Params) (n : String) (s : Sys) : RResult × Sys :=
  match cosc0 P n s with
  | (Phase.done r, s1) => (r, s1)
  | (Phase.susp k p cn, s1) =>
    match coscResume P n k p cn s1 with
    | (Phase.done r, s2) => (r, s2)
    | (Phase.susp _ _ _, s2) => (RResult.err, s2)

/-- Source create_or_start_container run in isolation: both the registry key
and the container name are hash_api_key of the credential (lines 258-259). -/
def create_or_start_container (P : Params) (api_key : String) (s : Sys) : RResult × Sys :=
  coscRun P (hash_api_key api_key) s

-- ===========================================================================
-- Request gateway endpoint (src/proxy.py:608-639, also 573-605)
-- ===========================================================================

/-- Source proxy endpoint: the status code of the response for one request,
given the credential header, the upstream oracle response, the system state,
and the outcome of the proxied upstream request. Python falsiness of the
header value makes the empty string behave like a missing header. -/
def proxy (P : Params) (s : Sys) (hdr : Option String) (oracle : OracleResp)
    (upstream : UpstreamResult) : Nat :=
  match hdr with
  | none => 400
  | some key =>
    if key = "" then 400
    else if validate_outline_key oracle = false then 401
    else
      match (create_or_start_container P key s).1 with
      | RResult.err => 503
      | RResult.ok _ _ => proxy_request upstream

-- ===========================================================================
-- Idle sweeper (src/proxy.py:440-477)
-- ===========================================================================

/-- Body of the per-record work of one sweep tick: if the record is idle,
attempt the stop (catching every exception) and append the key to the idle
list; the status is written to stopped inside the try on success. -/
def sweepRecord (P : Params) (s : Sys) (kv : String × ContainerInfo) : Sys × Bool :=
  if P.now - kv.2.last_used > 900 then
    let s1 : Sys :=
      match wGet s.world kv.2.container_name with
      | some _ =>
        if P.stopOk then
          { s with world := wSetRunning s.world kv.2.container_name false,
                   events := s.events ++ [Ev.stop kv.2.container_name],
                   registry := regPut s.registry kv.1 { kv.2 with status := "stopped" } }
        else
          { s with events := s.events ++ [Ev.stop kv.2.container_name] }
      | none => s
    (s1, true)
  else (s, false)

/-- One tick of cleanup_idle_containers: iterate the registry, then set the
status of every key collected in idle_keys to stopped unconditionally
(lines 472-474 run whether or not the stop succeeded). -/
def cleanup_idle_tick (P : Params) (s : Sys) : Sys :=
  let step := fun (acc : Sys × List String) (kv : String × ContainerInfo) =>
    let r := sweepRecord P acc.1 kv
    (r.1, if r.2 then acc.2 ++ [kv.1] else acc.2)
  let folded := s.registry.foldl step (s, [])
  let setStopped := fun (r : List (String × ContainerInfo)) (k : String) =>
    match regGet r k with
    | some info => regPut r k { info with status := "stopped" }
    | none => r
  { folded.1 with registry := folded.2.foldl setStopped folded.1.registry }

-- ===========================================================================
-- Cooperative scheduling of concurrent Resolve calls (asyncio event loop)
-- ===========================================================================

/-- State of one request task that entered create_or_start_container. -/
inductive TState where
  | pending
  | suspended : SuspKind → Nat → String → TState
  | finished : RResult → TState
deriving DecidableEq

/-- Run one task until its next suspension point or its return. -/
def stepTask (P : Params) (n : String) (s : Sys) (t : TState) : Sys × TState :=
  match t with
  | TState.pending =>
    match cosc0 P n s with
    | (Phase.done r, s1) => (s1, TState.finished r)
    | (Phase.susp k p cn, s1) => (s1, TState.suspended k p cn)
  | TState.suspended k p cn =>
    match coscResume P n k p cn s with
    | (Phase.done r, s1) => (s1, TState.finished r)
    | (Phase.susp k1 p1 cn1, s1) => (s1, TState.suspended k1 p1 cn1)
  | TState.finished r => (s, TState.finished r)

/-- The event loop picks task i and runs it to its next yield. -/
def schedStep (P : Params) (n : String) (st : Sys × List TState) (i : Nat) :
    Sys × List TState :=
  match st.2.get? i with
  | none => st
  | some t =>
    let r := stepTask P n st.1 t
    (r.1, st.2.set i r.2)

/-- Run a whole schedule of task picks. -/
def schedRun (P : Params) (n : String) (sched : List Nat) (st : Sys × List TState) :
    Sys × List TState :=
  sched.foldl (schedStep P n) st

/-- The state at process start: empty registry, no allocated ports, empty
runtime inventory. -/
def sys0 : Sys := ⟨[], [], [], []⟩

def isCreate : Ev → Bool
  | Ev.create _ => true
  | _ => false

/-- Invariant of the cold-start schedule before any task has run: nothing
exists and every task is pending. -/
def InvA (s : Sys) (ts : List TState) : Prop :=
  s.registry = [] ∧ s.allocated = [] ∧ s.world = [] ∧ s.events.filter isCreate = [] ∧
  ∀ t ∈ ts, t = TState.pending

/-- Invariant after the first task has run its first atomic segment: the one
container exists, is running on port 4000, exactly one create was issued, and
every task is pending, suspended after that creation, or finished with the
shared result. -/
def InvB (n : String) (s : Sys) (ts : List TState) : Prop :=
  s.world = [⟨n, true, some 4000⟩] ∧ s.allocated = [4000] ∧
  s.events.filter isCreate = [Ev.create n] ∧
  (s.registry = [] ∨
    ∃ rec, s.registry = [(n, rec)] ∧ rec.port = 4000 ∧ rec.container_name = n) ∧
  ∀ t ∈ ts, t = TState.pending ∨ t = TState.suspended SuspKind.create 4000 n ∨
    t = TState.finished (RResult.ok 4000 n)

def SchedInv (n : String) (s : Sys) (ts : List TState) : Prop :=
  InvA s ts ∨ InvB n s ts

-- ===========================================================================
-- THEOREMS
-- ===========================================================================

/-- Grounding of the SHA-256 embedding on the FIPS 180-4 empty-message test
vector. -/
theorem sha256hex_nil_vector : sha256hex ("") =
    ("e3b0c44298fc1c149afbf4c8996fb92427ae41e4649b934ca495991b7852b855").data := by
  decide

theorem hash_api_key_nil_vector : hash_api_key ("") = "mcp-e3b0c44298fc" := by decide

theorem bytesBE_length (k x : Nat) : (bytesBE k x).length = k := by
  induction k generalizing x with
  | zero => rfl
  | succ k ih => simp [bytesBE, ih]

theorem digestBytes_length (st : H8) : (digestBytes st).length = 32 := by
  simp [digestBytes, bytesBE_length]

theorem flatten_map_byteHex_length (l : List Nat) :
    ((l.map byteHex).flatten).length = 2 * l.length := by
  induction l with
  | nil => rfl
  | cons b bs ih => simp [byteHex, ih]; omega

theorem sha256hex_length (s : String) : (sha256hex s).length = 64 := by
  rw [sha256hex, flatten_map_byteHex_length, digestBytes_length]

theorem isLowerHexChar_hexChar : ∀ n, n < 16 → isLowerHexChar (hexChar n) = true := by
  decide

theorem byteHex_all_hex (b : Nat) : (byteHex b).all isLowerHexChar = true := by
  have h1 := isLowerHexChar_hexChar (b / 16 % 16) (Nat.mod_lt _ (by omega))
  have h2 := isLowerHexChar_hexChar (b % 16) (Nat.mod_lt _ (by omega))
  simp [byteHex, h1, h2]

theorem sha256hex_all_hex (s : String) : (sha256hex s).all isLowerHexChar = true := by
  rw [sha256hex]
  generalize digestBytes (sha256Bytes (utf8Encode s)) = l
  induction l with
  | nil => rfl
  | cons b bs ih => simp [List.all_append] at *; exact ⟨by simpa using byteHex_all_hex b, ih⟩

theorem all_take {p : Char → Bool} (l : List Char) (n : Nat) (h : l.all p = true) :
    (l.take n).all p = true := by
  rw [List.all_eq_true] at *
  exact fun x hx => h x (List.take_subset n l hx)

/-- C2: for every token t the derived container name equals mcp- followed by
the first 12 characters of the lowercase hexadecimal SHA-256 digest of t; the
name agrees with the spec-worded definition, is 16 characters long, and its
fingerprint suffix is 12 lowercase hex characters. Determinism is inherent:
hash_api_key is a function of the token alone. -/
theorem hash_api_key_spec (t : String) :
    hash_api_key t = containerName_spec t ∧
    hash_api_key t = "mcp-" ++ String.mk ((sha256hex t).take 12) ∧
    (hash_api_key t).length = 16 ∧
    (fingerprint_spec t).length = 12 ∧
    (fingerprint_spec t).data.all isLowerHexChar = true := by
  have hfp : (fingerprint_spec t).length = 12 := by
    show ((sha256hex t).take 12).length = 12
    rw [List.length_take, sha256hex_length]
    rfl
  refine ⟨rfl, rfl, ?_, hfp, ?_⟩
  · show (("mcp-" : String) ++ fingerprint_spec t).length = 16
    rw [String.length_append, hfp]
    rfl
  · exact all_take _ _ (sha256hex_all_hex t)

/-- C7 counterexample: the credential oracle of the source collapses Invalid and Unavailable
into the same value, so its interface does not return three distinct
outcomes. An HTTP 401 (Invalid), an HTTP 503 (5xx Unavailable) and a network
error (Unavailable) all evaluate to the same boolean. -/
theorem validate_outline_key_collapses :
    validate_outline_key (OracleResp.httpStatus 401) = validate_outline_key OracleResp.netError ∧
    validate_outline_key (OracleResp.httpStatus 503) = validate_outline_key OracleResp.netError ∧
    validate_outline_key OracleResp.netError = false := by
  decide

/-- C7 amended: validate_outline_key returns a boolean that is true exactly
for an upstream HTTP 200; every non-200 status (401, 403 and all 5xx alike)
and every network error map to false, so Unavailable is not distinguishable
from Invalid at this interface. -/
theorem validate_outline_key_boolean (n : Nat) :
    (n ≠ 200 → validate_outline_key (OracleResp.httpStatus n) = false) ∧
    validate_outline_key (OracleResp.httpStatus 200) = true ∧
    validate_outline_key OracleResp.netError = false := by
  refine ⟨fun h => ?_, by decide, by decide⟩
  simp [validate_outline_key]
  omega

theorem validate_outline_key_boolean_witness :
    (503 ≠ 200) ∧ validate_outline_key (OracleResp.httpStatus 503) = false :=
  ⟨by decide, (validate_outline_key_boolean 503).1 (by decide)⟩

theorem firstFree_some (alloc used : List Nat) :
    ∀ k a p, firstFree alloc used (List.range' a k) = some p →
      a ≤ p ∧ p < a + k ∧ p ∉ alloc ∧ p ∉ used ∧
      ∀ q, a ≤ q → q < p → (q ∈ alloc ∨ q ∈ used) := by
  intro k
  induction k with
  | zero => intro a p h; simp [List.range', firstFree] at h
  | succ k ih =>
    intro a p h
    rw [List.range'_succ, firstFree] at h
    by_cases hfree : a ∉ alloc ∧ a ∉ used
    · rw [if_pos hfree] at h
      cases h
      exact ⟨Nat.le_refl a, by omega, hfree.1, hfree.2, fun q h1 h2 => absurd h1 (by omega)⟩
    · rw [if_neg hfree] at h
      obtain ⟨ha, hb, hc, hd, he⟩ := ih (a + 1) p h
      refine ⟨by omega, by omega, hc, hd, fun q h1 h2 => ?_⟩
      rcases Nat.eq_or_lt_of_le h1 with h1 | h1
      · rw [← h1]
        by_cases h2a : a ∈ alloc
        · exact Or.inl h2a
        · exact Or.inr (by tauto)
      · exact he q h1 h2

theorem firstFree_none (alloc used : List Nat) :
    ∀ k a, (∀ q, a ≤ q → q < a + k → (q ∈ alloc ∨ q ∈ used)) →
      firstFree alloc used (List.range' a k) = none := by
  intro k
  induction k with
  | zero => intro a _; rfl
  | succ k ih =>
    intro a h
    rw [List.range'_succ, firstFree, if_neg]
    · exact ih (a + 1) (fun q h1 h2 => h q (by omega) (by omega))
    · intro hfree
      rcases h a (Nat.le_refl a) (by omega) with hq | hq
      · exact hfree.1 hq
      · exact hfree.2 hq

theorem self_mem_insertPort (p : Nat) (l : List Nat) : p ∈ insertPort p l := by
  by_cases h : p ∈ l <;> simp [insertPort, h]

/-- C8: port acquisition returns the first port of the window [4000, 5000)
that is neither in the leased set nor bound by an existing container, inserts
it into the leased set, and when every port of the window is taken it fails
(the RuntimeError modelled by none). -/
theorem get_next_available_port_spec (alloc used : List Nat) :
    (∀ p A, get_next_available_port alloc used = some (p, A) →
      (4000 ≤ p ∧ p < 5000) ∧ p ∉ alloc ∧ p ∉ used ∧
      (∀ q, 4000 ≤ q → q < p → (q ∈ alloc ∨ q ∈ used)) ∧
      A = insertPort p alloc ∧ p ∈ A) ∧
    ((∀ q, 4000 ≤ q → q < 5000 → (q ∈ alloc ∨ q ∈ used)) →
      get_next_available_port alloc used = none) := by
  have hNM : List.range' NEXT_PORT (MAX_PORT - NEXT_PORT) = List.range' 4000 1000 := rfl
  constructor
  · intro p A h
    rw [get_next_available_port, hNM] at h
    cases hf : firstFree alloc used (List.range' 4000 1000) with
    | none => rw [hf] at h; cases h
    | some q =>
      rw [hf] at h
      cases h
      obtain ⟨h1, h2, h3, h4, h5⟩ := firstFree_some alloc used _ _ _ hf
      exact ⟨⟨h1, by omega⟩, h3, h4, fun q hq1 hq2 => h5 q hq1 hq2,
        rfl, self_mem_insertPort _ _⟩
  · intro h
    rw [get_next_available_port, hNM, firstFree_none alloc used _ _
      (fun q h1 h2 => h q h1 (by omega))]

theorem get_next_available_port_spec_witness :
    (get_next_available_port [4000] [4001] = some (4002, [4002, 4000]) →
      (4000 ≤ 4002 ∧ 4002 < 5000) ∧ (4002 : Nat) ∉ [(4000 : Nat)] ∧ (4002 : Nat) ∉ [(4001 : Nat)] ∧
      (∀ q, 4000 ≤ q → q < 4002 → (q ∈ [(4000 : Nat)] ∨ q ∈ [(4001 : Nat)])) ∧
      [4002, 4000] = insertPort 4002 [4000] ∧ (4002 : Nat) ∈ [4002, 4000]) ∧
    get_next_available_port (List.range' 4000 1000) [] = none :=
  ⟨fun h => (get_next_available_port_spec [4000] [4001]).1 4002 [4002, 4000] h,
   (get_next_available_port_spec (List.range' 4000 1000) []).2
     (fun q h1 h2 => Or.inl (by rw [List.mem_range']; exact ⟨q - 4000, by omega⟩))⟩

/-- C10: GET, DELETE, HEAD and OPTIONS requests are forwarded with an empty
body; the inbound body is forwarded upstream exactly for POST, PUT and
PATCH. -/
theorem forwarded_body_methods (m : String) (b : List Nat) :
    ((m = "GET" ∨ m = "DELETE" ∨ m = "HEAD" ∨ m = "OPTIONS") →
      forwarded_body m b = []) ∧
    (m ∈ [("POST" : String), "PUT", "PATCH"] → forwarded_body m b = b) ∧
    (m ∉ [("POST" : String), "PUT", "PATCH"] → forwarded_body m b = []) := by
  refine ⟨fun h => ?_, fun h => ?_, fun h => ?_⟩
  · rcases h with h | h | h | h <;> subst h <;>
      rw [forwarded_body, if_neg (by decide)]
  · rw [forwarded_body, if_pos h]
  · rw [forwarded_body, if_neg h]

theorem forwarded_body_methods_witness :
    ((("GET" : String) = "GET" ∨ ("GET" : String) = "DELETE" ∨
      ("GET" : String) = "HEAD" ∨ ("GET" : String) = "OPTIONS") ∧
      forwarded_body ("GET") [7, 8, 9] = []) ∧
    ((("POST" : String) ∈ [("POST" : String), "PUT", "PATCH"]) ∧
      forwarded_body ("POST") [7, 8, 9] = [7, 8, 9]) :=
  ⟨⟨Or.inl rfl, (forwarded_body_methods ("GET") [7, 8, 9]).1 (Or.inl rfl)⟩,
   ⟨by decide, (forwarded_body_methods ("POST") [7, 8, 9]).2.1 (by decide)⟩⟩

/-- C3: status mapping of the gateway endpoint. A missing credential header
gives 400; a credential the oracle does not validate gives 401; any failure
of create_or_start_container gives 503; an upstream timeout gives 504; any
other upstream proxy failure gives 502 (and a successful upstream response
passes its status through). -/
theorem proxy_status_mapping (P : Params) (s : Sys) (hdr : Option String)
    (oracle : OracleResp) (up : UpstreamResult) :
    (hdr = none → proxy P s hdr oracle up = 400) ∧
    (∀ k, hdr = some k → k ≠ "" → validate_outline_key oracle = false →
      proxy P s hdr oracle up = 401) ∧
    (∀ k, hdr = some k → k ≠ "" → validate_outline_key oracle = true →
      (create_or_start_container P k s).1 = RResult.err →
      proxy P s hdr oracle up = 503) ∧
    (∀ k p cn, hdr = some k → k ≠ "" → validate_outline_key oracle = true →
      (create_or_start_container P k s).1 = RResult.ok p cn →
      up = UpstreamResult.timeout → proxy P s hdr oracle up = 504) ∧
    (∀ k p cn, hdr = some k → k ≠ "" → validate_outline_key oracle = true →
      (create_or_start_container P k s).1 = RResult.ok p cn →
      up = UpstreamResult.connError → proxy P s hdr oracle up = 502) := by
  refine ⟨fun h => ?_, fun k h hk hv => ?_, fun k h hk hv hr => ?_,
    fun k p cn h hk hv hr hu => ?_, fun k p cn h hk hv hr hu => ?_⟩
  · subst h; rfl
  · subst h; rw [proxy, if_neg hk, if_pos hv]
  · subst h; rw [proxy, if_neg hk, if_neg (by rw [hv]; decide), hr]
  · subst h; subst hu; rw [proxy, if_neg hk, if_neg (by rw [hv]; decide), hr]; rfl
  · subst h; subst hu; rw [proxy, if_neg hk, if_neg (by rw [hv]; decide), hr]; rfl

theorem proxy_status_mapping_witness :
    proxy ⟨true, true, true, 5⟩ sys0 none (OracleResp.httpStatus 200)
      (UpstreamResult.response 200) = 400 ∧
    (validate_outline_key (OracleResp.httpStatus 401) = false ∧
      proxy ⟨true, true, true, 5⟩ sys0 (some ("k")) (OracleResp.httpStatus 401)
        (UpstreamResult.response 200) = 401) ∧
    ((create_or_start_container ⟨true, false, true, 5⟩ ("k") sys0).1 = RResult.err ∧
      proxy ⟨true, false, true, 5⟩ sys0 (some ("k")) (OracleResp.httpStatus 200)
        (UpstreamResult.response 200) = 503) ∧
    ((create_or_start_container ⟨true, true, true, 5⟩ ("k") sys0).1 =
        RResult.ok 4000 (hash_api_key ("k")) ∧
      proxy ⟨true, true, true, 5⟩ sys0 (some ("k")) (OracleResp.httpStatus 200)
        UpstreamResult.timeout = 504) ∧
    proxy ⟨true, true, true, 5⟩ sys0 (some ("k")) (OracleResp.httpStatus 200)
      UpstreamResult.connError = 502 := by
  have herr : (create_or_start_container ⟨true, false, true, 5⟩ ("k") sys0).1 =
      RResult.err := by decide
  have hok : (create_or_start_container ⟨true, true, true, 5⟩ ("k") sys0).1 =
      RResult.ok 4000 (hash_api_key ("k")) := by decide
  refine ⟨(proxy_status_mapping _ _ _ _ _).1 rfl,
    ⟨rfl, (proxy_status_mapping _ _ _ _ _).2.1 ("k") rfl (by decide) rfl⟩,
    ⟨herr, (proxy_status_mapping _ _ _ _ _).2.2.1 ("k") rfl (by decide) rfl herr⟩,
    ⟨hok, (proxy_status_mapping _ _ _ _ _).2.2.2.1 ("k") 4000 (hash_api_key ("k"))
      rfl (by decide) rfl hok rfl⟩,
    (proxy_status_mapping _ _ _ _ _).2.2.2.2 ("k") 4000 (hash_api_key ("k"))
      rfl (by decide) rfl hok rfl⟩

theorem coscRun_adopt (P : Params) (n : String) (p : Nat) (r : Bool) (A : List Nat)
    (hs : P.startOk = true) :
    coscRun P n ⟨[], A, [⟨n, r, some p⟩], []⟩ =
      (RResult.ok p n,
       ⟨[(n, ⟨n, n, p, P.now, P.now, "running"⟩)], insertPort p A, [⟨n, true, some p⟩],
        if r then [Ev.portMark p] else [Ev.portMark p, Ev.start n]⟩) := by
  cases r <;>
    simp [coscRun, cosc0, cosc2, cosc2b, cosc3, coscResume, regGet, regPut, wGet,
      is_container_running, is_container_stopped, start_existing_container,
      wSetRunning, hs]

/-- C4: with an empty registry (fresh process) and a container for the token
present on the runtime with a valid binding on the internal port, Resolve
returns that container and its existing host port, the port is marked
allocated before any ContainerStart is issued, and no ContainerCreate is
issued (the event log is exactly the port mark for a running container, or
the port mark followed by the start for a stopped one). -/
theorem resolve_adopts_existing_container (P : Params) (key : String) (p : Nat)
    (r : Bool) (A : List Nat) (hs : P.startOk = true) :
    (create_or_start_container P key
        ⟨[], A, [⟨hash_api_key key, r, some p⟩], []⟩).1 =
      RResult.ok p (hash_api_key key) ∧
    ((create_or_start_container P key
        ⟨[], A, [⟨hash_api_key key, r, some p⟩], []⟩).2.events.filter isCreate) = [] ∧
    (create_or_start_container P key
        ⟨[], A, [⟨hash_api_key key, r, some p⟩], []⟩).2.events =
      (if r then [Ev.portMark p]
       else [Ev.portMark p, Ev.start (hash_api_key key)]) ∧
    p ∈ (create_or_start_container P key
        ⟨[], A, [⟨hash_api_key key, r, some p⟩], []⟩).2.allocated := by
  rw [create_or_start_container, coscRun_adopt P (hash_api_key key) p r A hs]
  refine ⟨rfl, ?_, rfl, self_mem_insertPort p A⟩
  cases r <;> simp [isCreate]

theorem resolve_adopts_existing_container_witness :
    (⟨true, true, true, 7⟩ : Params).startOk = true ∧
    ((create_or_start_container ⟨true, true, true, 7⟩ ("k")
        ⟨[], [], [⟨hash_api_key ("k"), false, some 4500⟩], []⟩).1 =
      RResult.ok 4500 (hash_api_key ("k")) ∧
    ((create_or_start_container ⟨true, true, true, 7⟩ ("k")
        ⟨[], [], [⟨hash_api_key ("k"), false, some 4500⟩], []⟩).2.events.filter isCreate) = [] ∧
    (create_or_start_container ⟨true, true, true, 7⟩ ("k")
        ⟨[], [], [⟨hash_api_key ("k"), false, some 4500⟩], []⟩).2.events =
      (if false then [Ev.portMark 4500]
       else [Ev.portMark 4500, Ev.start (hash_api_key ("k"))]) ∧
    4500 ∈ (create_or_start_container ⟨true, true, true, 7⟩ ("k")
        ⟨[], [], [⟨hash_api_key ("k"), false, some 4500⟩], []⟩).2.allocated) :=
  ⟨rfl, resolve_adopts_existing_container ⟨true, true, true, 7⟩ ("k") 4500 false [] rfl⟩

theorem mem_insertPort (x p : Nat) (l : List Nat) (h : x ∈ l) : x ∈ insertPort p l := by
  by_cases hp : p ∈ l <;> simp [insertPort, hp, h]

theorem gnap_some_allocated {alloc used : List Nat} {p : Nat} {A : List Nat}
    (h : get_next_available_port alloc used = some (p, A)) : A = insertPort p alloc := by
  rw [get_next_available_port] at h
  cases hf : firstFree alloc used (List.range' NEXT_PORT (MAX_PORT - NEXT_PORT)) with
  | none => rw [hf] at h; cases h
  | some q => rw [hf] at h; cases h; rfl

theorem create_container_allocated (P : Params) (s : Sys) (n : String) (p : Nat) :
    ((create_container P s n p).2).allocated = s.allocated := by
  rw [create_container]
  by_cases hc : P.createOk <;> simp [hc]

theorem start_existing_allocated (P : Params) (s : Sys) (n : String) :
    ((start_existing_container P s n).2).allocated = s.allocated := by
  rw [start_existing_container]
  split
  · rfl
  · split
    · rfl
    · split <;> rfl

theorem cosc3_allocated (P : Params) (n : String) (s : Sys) (x : Nat)
    (h : x ∈ s.allocated) : x ∈ (cosc3 P n s).2.allocated := by
  rw [cosc3]
  split
  · exact h
  · rename_i p A hg
    have hA : A = insertPort p s.allocated := gnap_some_allocated hg
    subst hA
    dsimp only
    split <;> rename_i heq
    · rename_i cn
      have h2 := congrArg (fun r => (r.2).allocated) heq
      simp only [create_container_allocated] at h2
      rw [← h2] at *
      exact mem_insertPort x p _ h
    · have h2 := congrArg (fun r => (r.2).allocated) heq
      simp only [create_container_allocated] at h2
      rw [← h2]
      exact mem_insertPort x p _ h

theorem cosc2b_allocated (P : Params) (n : String) (s : Sys) (x : Nat)
    (h : x ∈ s.allocated) : x ∈ (cosc2b P n s).2.allocated := by
  rw [cosc2b]
  split
  · split
    · split
      · exact mem_insertPort x _ _ h
      · dsimp only
        split <;> exact cosc3_allocated P n _ x h
    · exact cosc3_allocated P n s x h
  · exact cosc3_allocated P n s x h

theorem cosc2_allocated (P : Params) (n : String) (s : Sys) (x : Nat)
    (h : x ∈ s.allocated) : x ∈ (cosc2 P n s).2.allocated := by
  rw [cosc2]
  split
  · split
    · split
      · dsimp only
        split <;> rename_i s2 heq <;>
          have h2 := congrArg (fun r => (r.2).allocated) heq <;>
          simp only [start_existing_allocated] at h2
        · rw [← h2]
          exact mem_insertPort x _ _ h
        · exact cosc2b_allocated P n s2 x (by rw [← h2]; exact mem_insertPort x _ _ h)
      · exact cosc2b_allocated P n _ x h
    · exact cosc2b_allocated P n s x h
  · exact cosc2b_allocated P n s x h

theorem cosc0_allocated (P : Params) (n : String) (s : Sys) (x : Nat)
    (h : x ∈ s.allocated) : x ∈ (cosc0 P n s).2.allocated := by
  rw [cosc0]
  split
  · split
    · exact h
    · split
      · dsimp only
        split <;> rename_i s2 heq <;>
          have h2 := congrArg (fun r => (r.2).allocated) heq <;>
          simp only [start_existing_allocated] at h2
        · rw [← h2]; exact h
        · exact cosc2_allocated P n _ x (by rw [← h2]; exact h)
      · exact cosc2_allocated P n s x h
  · exact cosc2_allocated P n s x h

theorem coscRun_allocated (P : Params) (n : String) (s : Sys) (x : Nat)
    (h : x ∈ s.allocated) : x ∈ (coscRun P n s).2.allocated := by
  rw [coscRun]
  have h0 := cosc0_allocated P n s x h
  split <;> rename_i heq
  · have h2 := congrArg (fun r => (r.2).allocated) heq
    simp only [] at h2
    rw [← h2]; exact h0
  · rename_i k p cn s1
    have h2 := congrArg (fun r => (r.2).allocated) heq
    simp only [] at h2
    have h1 : x ∈ s1.allocated := by rw [← h2]; exact h0
    cases k <;> rw [coscResume] <;>
      first
        | exact h1
        | (intro hcon; cases hcon)

theorem coscRun_failed_restart (P : Params) (n : String) (rec : ContainerInfo)
    (A : List Nat) (hs : P.startOk = false) (hc : P.createOk = false)
    (hrec : rec.container_name = n) :
    coscRun P n ⟨[(n, rec)], A, [⟨n, false, none⟩], []⟩ =
      (RResult.err,
       ⟨[], (match get_next_available_port A [] with
             | some pa => pa.2
             | none => A), [],
        (match get_next_available_port A [] with
         | some pa => [Ev.start n, Ev.remove n, Ev.portMark pa.1]
         | none => [Ev.start n, Ev.remove n])⟩) := by
  cases hg : get_next_available_port A ([] : List Nat) with
  | none =>
    simp [coscRun, cosc0, cosc2, cosc2b, cosc3, regGet, regDel, wGet, wRemove,
      wUsedPorts, is_container_running, is_container_stopped,
      start_existing_container, create_container, hs, hc, hrec, hg]
  | some pa =>
    simp [coscRun, cosc0, cosc2, cosc2b, cosc3, regGet, regDel, wGet, wRemove,
      wUsedPorts, is_container_running, is_container_stopped,
      start_existing_container, create_container, hs, hc, hrec, hg]

theorem coscRun_failed_create (P : Params) (n : String) (A : List Nat)
    (hc : P.createOk = false) :
    coscRun P n ⟨[], A, [], []⟩ =
      (RResult.err,
       ⟨[], (match get_next_available_port A [] with
             | some pa => pa.2
             | none => A), [],
        (match get_next_available_port A [] with
         | some pa => [Ev.portMark pa.1]
         | none => [])⟩) := by
  cases hg : get_next_available_port A ([] : List Nat) with
  | none =>
    simp [coscRun, cosc0, cosc2, cosc2b, cosc3, regGet, wGet, wUsedPorts,
      is_container_running, is_container_stopped, create_container, hc, hg]
  | some pa =>
    simp [coscRun, cosc0, cosc2, cosc2b, cosc3, regGet, wGet, wUsedPorts,
      is_container_running, is_container_stopped, create_container, hc, hg]

/-- C5 counterexample: a registry record whose container is stopped and whose
restart fails. After Resolve falls through, the record has been deleted from
the registry but port 4000 of the record is still in the allocated set: the
lease is not released, refuting the release half of the claim. -/
theorem failed_restart_lease_not_released :
    (create_or_start_container ⟨false, false, true, 50⟩ ("k")
      ⟨[(hash_api_key ("k"),
          ⟨hash_api_key ("k"), hash_api_key ("k"), 4000, 0, 0, "running"⟩)],
       [4000], [⟨hash_api_key ("k"), false, none⟩], []⟩).2.registry = [] ∧
    4000 ∈ (create_or_start_container ⟨false, false, true, 50⟩ ("k")
      ⟨[(hash_api_key ("k"),
          ⟨hash_api_key ("k"), hash_api_key ("k"), 4000, 0, 0, "running"⟩)],
       [4000], [⟨hash_api_key ("k"), false, none⟩], []⟩).2.allocated := by
  constructor <;> decide

/-- C5 amended: when the restart of a registered, stopped container fails,
Resolve deletes the record from the registry and falls through, but it does
not release the port lease — the allocated-ports set never loses a member
during any Resolve, so every previously leased port stays leased. -/
theorem failed_restart_deletes_record_keeps_lease :
    (∀ (P : Params) (n : String) (s : Sys) (x : Nat),
      x ∈ s.allocated → x ∈ (coscRun P n s).2.allocated) ∧
    (∀ (P : Params) (key : String) (rec : ContainerInfo) (A : List Nat),
      P.startOk = false → P.createOk = false →
      rec.container_name = hash_api_key key →
      (create_or_start_container P key
        ⟨[(hash_api_key key, rec)], A, [⟨hash_api_key key, false, none⟩], []⟩).2.registry
          = [] ∧
      ∀ x ∈ A, x ∈ (create_or_start_container P key
        ⟨[(hash_api_key key, rec)], A, [⟨hash_api_key key, false, none⟩], []⟩).2.allocated) := by
  refine ⟨fun P n s x h => coscRun_allocated P n s x h, ?_⟩
  intro P key rec A hs hc hrec
  rw [create_or_start_container,
    coscRun_failed_restart P (hash_api_key key) rec A hs hc hrec]
  refine ⟨rfl, fun x hx => ?_⟩
  cases hg : get_next_available_port A ([] : List Nat) with
  | none => simp [hg]; exact hx
  | some pa =>
    have hA := gnap_some_allocated (A := pa.2) (p := pa.1) (by rw [hg])
    simp [hg, hA]
    exact mem_insertPort x pa.1 A hx

theorem failed_restart_deletes_record_keeps_lease_witness :
    ((⟨false, false, true, 50⟩ : Params).startOk = false ∧
     (⟨false, false, true, 50⟩ : Params).createOk = false ∧
     (⟨hash_api_key ("k"), hash_api_key ("k"), 4000, 0, 0,
        ("running" : String)⟩ : ContainerInfo).container_name = hash_api_key ("k")) ∧
    ((create_or_start_container ⟨false, false, true, 50⟩ ("k")
        ⟨[(hash_api_key ("k"),
            ⟨hash_api_key ("k"), hash_api_key ("k"), 4000, 0, 0, "running"⟩)],
         [4000], [⟨hash_api_key ("k"), false, none⟩], []⟩).2.registry = [] ∧
      ∀ x ∈ [(4000 : Nat)], x ∈ (create_or_start_container ⟨false, false, true, 50⟩ ("k")
        ⟨[(hash_api_key ("k"),
            ⟨hash_api_key ("k"), hash_api_key ("k"), 4000, 0, 0, "running"⟩)],
         [4000], [⟨hash_api_key ("k"), false, none⟩], []⟩).2.allocated) :=
  ⟨⟨rfl, rfl, rfl⟩,
   failed_restart_deletes_record_keeps_lease.2 ⟨false, false, true, 50⟩ ("k")
     ⟨hash_api_key ("k"), hash_api_key ("k"), 4000, 0, 0, "running"⟩ [4000]
     rfl rfl rfl⟩

/-- C9: when fresh container creation fails after a port was acquired, Resolve
raises (err) and the acquired port remains in the allocated set; no port of
the initial allocated set is ever released either, so each failed creation
permanently consumes the acquired port for the life of the process. -/
theorem failed_creation_keeps_port_leased (P : Params) (key : String)
    (A : List Nat) (hc : P.createOk = false) :
    (create_or_start_container P key ⟨[], A, [], []⟩).1 = RResult.err ∧
    (∀ p A1, get_next_available_port A [] = some (p, A1) →
      (create_or_start_container P key ⟨[], A, [], []⟩).2.allocated = insertPort p A ∧
      p ∈ (create_or_start_container P key ⟨[], A, [], []⟩).2.allocated) ∧
    (∀ x ∈ A, x ∈ (create_or_start_container P key ⟨[], A, [], []⟩).2.allocated) := by
  rw [create_or_start_container, coscRun_failed_create P (hash_api_key key) A hc]
  refine ⟨rfl, fun p A1 hg => ?_, fun x hx => ?_⟩
  · have hA := gnap_some_allocated hg
    subst hA
    simp [hg]
    exact self_mem_insertPort p A
  · cases hg : get_next_available_port A ([] : List Nat) with
    | none => simp [hg]; exact hx
    | some pa =>
      have hA := gnap_some_allocated (A := pa.2) (p := pa.1) (by rw [hg])
      simp [hg, hA]
      exact mem_insertPort x pa.1 A hx

theorem failed_creation_keeps_port_leased_witness :
    (⟨true, false, true, 3⟩ : Params).createOk = false ∧
    ((create_or_start_container ⟨true, false, true, 3⟩ ("k") ⟨[], [], [], []⟩).1 =
        RResult.err ∧
      (∀ p A1, get_next_available_port [] [] = some (p, A1) →
        (create_or_start_container ⟨true, false, true, 3⟩ ("k")
          ⟨[], [], [], []⟩).2.allocated = insertPort p [] ∧
        p ∈ (create_or_start_container ⟨true, false, true, 3⟩ ("k")
          ⟨[], [], [], []⟩).2.allocated) ∧
      (∀ x ∈ ([] : List Nat),
        x ∈ (create_or_start_container ⟨true, false, true, 3⟩ ("k")
          ⟨[], [], [], []⟩).2.allocated)) :=
  ⟨rfl, failed_creation_keeps_port_leased ⟨true, false, true, 3⟩ ("k") [] rfl⟩

/-- C6 counterexample: one idle record whose ContainerStop fails (the stop is
attempted but raises). After the sweep tick the record status is stopped, not
running — the post-loop registry update runs unconditionally — while the
runtime container is in fact still running. -/
theorem sweep_sets_stopped_despite_failed_stop :
    (cleanup_idle_tick ⟨true, true, false, 1000⟩
      ⟨[(("N" : String), ⟨"N", "N", 4000, 0, 0, "running"⟩)], [4000],
       [⟨"N", true, some 4000⟩], []⟩).registry =
      [(("N" : String), ⟨"N", "N", 4000, 0, 0, "stopped"⟩)] ∧
    (cleanup_idle_tick ⟨true, true, false, 1000⟩
      ⟨[(("N" : String), ⟨"N", "N", 4000, 0, 0, "running"⟩)], [4000],
       [⟨"N", true, some 4000⟩], []⟩).world = [⟨("N" : String), true, some 4000⟩] ∧
    (cleanup_idle_tick ⟨true, true, false, 1000⟩
      ⟨[(("N" : String), ⟨"N", "N", 4000, 0, 0, "running"⟩)], [4000],
       [⟨"N", true, some 4000⟩], []⟩).events = [Ev.stop ("N")] := by
  refine ⟨?_, ?_, ?_⟩ <;> decide

/-- C6 amended: during a sweep tick every idle record has its status set to
stopped whether the ContainerStop succeeds, fails, or the container is
missing; the record never remains Running after the sweep. -/
theorem sweep_always_marks_stopped (P : Params) (k : String) (info : ContainerInfo)
    (A : List Nat) (w : List DCont) (ev : List Ev)
    (hidle : P.now - info.last_used > 900) :
    regGet (cleanup_idle_tick P ⟨[(k, info)], A, w, ev⟩).registry k =
      some { info with status := "stopped" } := by
  rw [cleanup_idle_tick]
  simp only [List.foldl, sweepRecord, hidle, if_pos]
  cases hw : wGet w info.container_name with
  | none => simp [regGet, regPut]
  | some c =>
    by_cases hst : P.stopOk <;> simp [hst, regGet, regPut]

theorem sweep_always_marks_stopped_witness :
    ((⟨true, true, false, 1000⟩ : Params).now - 0 > 900) ∧
    regGet (cleanup_idle_tick ⟨true, true, false, 1000⟩
      ⟨[(("N" : String), ⟨"N", "N", 4000, 0, 0, "running"⟩)], [4000],
       [⟨"N", true, some 4000⟩], []⟩).registry ("N") =
      some ⟨"N", "N", 4000, 0, 0, "stopped"⟩ :=
  ⟨by decide,
   sweep_always_marks_stopped ⟨true, true, false, 1000⟩ ("N")
     ⟨"N", "N", 4000, 0, 0, "running"⟩ [4000] [⟨"N", true, some 4000⟩] []
     (by decide)⟩

theorem gnap_nil : get_next_available_port [] [] = some (4000, [4000]) := by decide

theorem cosc0_cold (P : Params) (n : String) (s : Sys) (hc : P.createOk = true)
    (h1 : s.registry = []) (h2 : s.allocated = []) (h3 : s.world = []) :
    cosc0 P n s = (Phase.susp SuspKind.create 4000 n,
      { s with allocated := [4000], world := [⟨n, true, some 4000⟩],
               events := s.events ++ [Ev.portMark 4000, Ev.create n] }) := by
  simp [cosc0, cosc2, cosc2b, cosc3, regGet, wGet, is_container_running,
    is_container_stopped, wUsedPorts, h1, h2, h3, gnap_nil, create_container, hc]

theorem cosc0_warm (P : Params) (n : String) (s : Sys)
    (hw : s.world = [⟨n, true, some 4000⟩]) (ha : s.allocated = [4000])
    (hreg : s.registry = [] ∨
      ∃ rec, s.registry = [(n, rec)] ∧ rec.port = 4000 ∧ rec.container_name = n) :
    ∃ s1, cosc0 P n s = (Phase.done (RResult.ok 4000 n), s1) ∧
      s1.world = s.world ∧ s1.allocated = [4000] ∧
      s1.events.filter isCreate = s.events.filter isCreate ∧
      ∃ rec1, s1.registry = [(n, rec1)] ∧ rec1.port = 4000 ∧ rec1.container_name = n := by
  rcases hreg with hr | ⟨rec, hr, hport, hname⟩
  · have heq : cosc0 P n s = (Phase.done (RResult.ok 4000 n),
        { s with registry := [(n, ⟨n, n, 4000, P.now, P.now, "running"⟩)],
                 allocated := [4000],
                 events := s.events ++ [Ev.portMark 4000] }) := by
      simp [cosc0, cosc2, cosc2b, regGet, wGet, is_container_running,
        is_container_stopped, hr, hw, ha, insertPort, regPut]
    refine ⟨_, heq, rfl, rfl, ?_, ⟨n, n, 4000, P.now, P.now, "running"⟩, rfl, rfl, rfl⟩
    simp [List.filter_append, isCreate]
  · have heq : cosc0 P n s = (Phase.done (RResult.ok 4000 n),
        { s with registry := [(n, { rec with last_used := P.now })] }) := by
      simp [cosc0, regGet, regPut, is_container_running, wGet, hr, hw, hname, hport]
    exact ⟨_, heq, rfl, ha, rfl, { rec with last_used := P.now }, rfl, hport, hname⟩

theorem coscResume_create_B (P : Params) (n : String) (s : Sys) :
    ∃ s1, coscResume P n SuspKind.create 4000 n s = (Phase.done (RResult.ok 4000 n), s1) ∧
      s1.world = s.world ∧ s1.allocated = s.allocated ∧ s1.events = s.events ∧
      s1.registry = regPut s.registry n ⟨n, n, 4000, P.now, P.now, "running"⟩ :=
  ⟨_, rfl, rfl, rfl, rfl, rfl⟩

theorem regPut_B (n : String) (t : Nat) (r : List (String × ContainerInfo))
    (hreg : r = [] ∨ ∃ rec, r = [(n, rec)] ∧ rec.port = 4000 ∧ rec.container_name = n) :
    ∃ rec1, regPut r n ⟨n, n, 4000, t, t, "running"⟩ = [(n, rec1)] ∧
      rec1.port = 4000 ∧ rec1.container_name = n := by
  rcases hreg with hr | ⟨rec, hr, hport, hname⟩ <;> subst hr <;>
    exact ⟨⟨n, n, 4000, t, t, "running"⟩, by simp [regPut], rfl, rfl⟩

theorem stepTask_pending_susp (P : Params) (n : String) (s : Sys) (k : SuspKind)
    (p : Nat) (cn : String) (s1 : Sys) (h : cosc0 P n s = (Phase.susp k p cn, s1)) :
    stepTask P n s TState.pending = (s1, TState.suspended k p cn) := by
  simp only [stepTask, h]

theorem stepTask_pending_done (P : Params) (n : String) (s : Sys) (r : RResult)
    (s1 : Sys) (h : cosc0 P n s = (Phase.done r, s1)) :
    stepTask P n s TState.pending = (s1, TState.finished r) := by
  simp only [stepTask, h]

theorem stepTask_susp_done (P : Params) (n : String) (s : Sys) (k : SuspKind)
    (p : Nat) (cn : String) (r : RResult) (s1 : Sys)
    (h : coscResume P n k p cn s = (Phase.done r, s1)) :
    stepTask P n s (TState.suspended k p cn) = (s1, TState.finished r) := by
  simp only [stepTask, h]

theorem stepTask_finished (P : Params) (n : String) (s : Sys) (r : RResult) :
    stepTask P n s (TState.finished r) = (s, TState.finished r) := rfl

theorem schedStep_SchedInv (P : Params) (n : String) (hc : P.createOk = true)
    (st : Sys × List TState) (i : Nat) (h : SchedInv n st.1 st.2) :
    SchedInv n (schedStep P n st i).1 (schedStep P n st i).2 := by
  rw [schedStep]
  cases hg : st.2.get? i with
  | none => exact h
  | some t =>
    have htmem : t ∈ st.2 := List.get?_mem hg
    dsimp only
    rcases h with ⟨h1, h2, h3, h4, h5⟩ | ⟨hw, ha, hev, hreg, hts⟩
    · have ht := h5 t htmem
      subst ht
      rw [stepTask_pending_susp P n st.1 _ _ _ _ (cosc0_cold P n st.1 hc h1 h2 h3)]
      refine Or.inr ⟨rfl, rfl, ?_, Or.inl h1, fun t1 ht1 => ?_⟩
      · simp [List.filter_append, isCreate, h4]
      · rcases List.mem_or_eq_of_mem_set ht1 with hm | hm
        · exact Or.inl (h5 t1 hm)
        · exact Or.inr (Or.inl hm)
    · have ht := hts t htmem
      rcases ht with ht | ht | ht <;> subst ht
      · obtain ⟨s1, heq, hw1, ha1, hev1, rec1, hr1, hp1, hn1⟩ :=
          cosc0_warm P n st.1 hw ha hreg
        rw [stepTask_pending_done P n st.1 _ _ heq]
        refine Or.inr ⟨by rw [hw1, hw], ha1, by rw [hev1, hev],
          Or.inr ⟨rec1, hr1, hp1, hn1⟩, fun t1 ht1 => ?_⟩
        rcases List.mem_or_eq_of_mem_set ht1 with hm | hm
        · exact hts t1 hm
        · exact Or.inr (Or.inr hm)
      · obtain ⟨s1, heq, hw1, ha1, hev1, hr1⟩ := coscResume_create_B P n st.1
        rw [stepTask_susp_done P n st.1 _ _ _ _ _ heq]
        obtain ⟨rec1, hput, hp1, hn1⟩ := regPut_B n P.now st.1.registry hreg
        refine Or.inr ⟨by rw [hw1, hw], by rw [ha1, ha], by rw [hev1, hev],
          Or.inr ⟨rec1, by rw [hr1, hput], hp1, hn1⟩, fun t1 ht1 => ?_⟩
        rcases List.mem_or_eq_of_mem_set ht1 with hm | hm
        · exact hts t1 hm
        · exact Or.inr (Or.inr hm)
      · rw [stepTask_finished]
        refine Or.inr ⟨hw, ha, hev, hreg, fun t1 ht1 => ?_⟩
        rcases List.mem_or_eq_of_mem_set ht1 with hm | hm
        · exact hts t1 hm
        · exact Or.inr (Or.inr hm)

theorem schedRun_SchedInv (P : Params) (n : String) (hc : P.createOk = true)
    (sched : List Nat) :
    ∀ st, SchedInv n st.1 st.2 →
      SchedInv n (schedRun P n sched st).1 (schedRun P n sched st).2 := by
  induction sched with
  | nil => intro st h; exact h
  | cons i rest ih =>
    intro st h
    rw [schedRun, List.foldl_cons]
    exact ih _ (schedStep_SchedInv P n hc st i h)

/-- C1: concurrent Resolve calls sharing one fingerprint from a cold start.
Under the cooperative event loop (docker SDK calls are synchronous, the only
suspension points are the awaited sleeps) every schedule of N tasks entering
create_or_start_container with the same credential, starting from the empty
registry and empty runtime, issues at most one ContainerCreate, and every
task that finishes receives the same resolved host port 4000 with the shared
container name. -/
theorem resolve_single_flight (P : Params) (key : String) (N : Nat)
    (sched : List Nat) (hc : P.createOk = true) :
    ((schedRun P (hash_api_key key) sched
        (sys0, List.replicate N TState.pending)).1.events.filter isCreate).length ≤ 1 ∧
    (∀ r, TState.finished r ∈ (schedRun P (hash_api_key key) sched
        (sys0, List.replicate N TState.pending)).2 →
      r = RResult.ok 4000 (hash_api_key key)) := by
  have h0 : SchedInv (hash_api_key key) sys0 (List.replicate N TState.pending) :=
    Or.inl ⟨rfl, rfl, rfl, rfl, fun t ht => List.eq_of_mem_replicate ht⟩
  have h := schedRun_SchedInv P (hash_api_key key) hc sched
    (sys0, List.replicate N TState.pending) h0
  rcases h with ⟨h1, h2, h3, h4, h5⟩ | ⟨hw, ha, hev, hreg, hts⟩
  · refine ⟨by rw [h4]; exact Nat.zero_le 1, fun r hr => ?_⟩
    have := h5 _ hr
    cases this
  · refine ⟨by rw [hev]; exact Nat.le_refl 1, fun r hr => ?_⟩
    rcases hts _ hr with h | h | h
    · cases h
    · cases h
    · injection h

theorem resolve_single_flight_witness :
    (⟨true, true, true, 5⟩ : Params).createOk = true ∧
    ((schedRun ⟨true, true, true, 5⟩ (hash_api_key ("k")) [0, 1, 2, 0]
        (sys0, List.replicate 3 TState.pending)).1.events.filter isCreate).length ≤ 1 ∧
    (∀ r, TState.finished r ∈ (schedRun ⟨true, true, true, 5⟩ (hash_api_key ("k"))
        [0, 1, 2, 0] (sys0, List.replicate 3 TState.pending)).2 →
      r = RResult.ok 4000 (hash_api_key ("k"))) :=
  ⟨rfl, resolve_single_flight ⟨true, true, true, 5⟩ ("k") 3 [0, 1, 2, 0] rfl⟩
